import Mathlib

/-!
Verification of the CraveAI conversation core: the conversation-window
builder, persona prompt compiler, transcript store, message editor,
chat orchestrator and message formatter, shallowly embedded from
`src/js/ai-service.js` and `src/js/app.js`.
-/

namespace CraveAI

/-- Message sender, `sender ∈ \x7buser, bot\x7d` in the stored transcript. -/
inductive Sender where
  | user
  | bot
deriving DecidableEq, Repr

/-- A stored chat message: `\x7bsender, text, timestamp\x7d` (app.js). -/
structure Message where
  sender : Sender
  text : String
  timestamp : Nat
deriving DecidableEq, Repr

/-- The bot fields consumed by the conversation core (app.js / ai-service.js). -/
structure Bot where
  name : String
  description : String
  chatTone : String
  ageCategory : String
deriving DecidableEq, Repr

/-- One `\x7brole, content\x7d` entry of the conversation window (ai-service.js). -/
structure ChatEntry where
  role : String
  content : String
deriving DecidableEq, Repr

instance : Inhabited ChatEntry := ⟨⟨"", ""⟩⟩

/-- The chats-by-bot-id map persisted in localStorage under `STORAGE_KEYS.CHATS`;
`getChatHistory` defaults a missing key to `[]`, so the map is modelled as a
total function from bot ids to transcripts. -/
def Chats : Type := String → List Message

/-- app.js `getChatHistory(botId)`: `chats[botId] || []`. -/
def getChatHistory (chats : Chats) (botId : String) : List Message :=
  chats botId

/-- app.js `saveChatMessage(botId, message)`: read the whole chats map, push
the message onto the bot transcript (creating it if absent), write back. -/
def saveChatMessage (chats : Chats) (botId : String) (message : Message) : Chats :=
  fun k => if k = botId then chats k ++ [message] else chats k

/-- ai-service.js `getToneTemperature(tone)`: switch over the tone with a
`default: return 0.7`. Floating literals are modelled as exact rationals. -/
def getToneTemperature (tone : String) : ℚ :=
  if tone = "Normal" then 7/10
  else if tone = "Romantic" then 8/10
  else if tone = "Flirty" then 85/100
  else if tone = "Spicy" then 9/10
  else 7/10

/-- ai-service.js `createPersonalityPrompt(bot)`.  The tone `switch` has
cases for the four recognized tones and NO default case, so an unrecognized
tone appends nothing.  The age branch compares against `SFW (12+)` exactly. -/
def createPersonalityPrompt (bot : Bot) : String :=
  let prompt := "You are " ++ bot.name ++ ", an AI companion with the following personality: " ++ bot.description
  let prompt := prompt ++
    (if bot.chatTone = "Normal" then " Your tone is friendly, helpful, and conversational."
     else if bot.chatTone = "Romantic" then " Your tone is warm, affectionate, and romantic. You speak with poetic language and express deep emotional connection."
     else if bot.chatTone = "Flirty" then " Your tone is playful, flirtatious, and charming. You use light teasing and compliments in your conversation."
     else if bot.chatTone = "Spicy" then " Your tone is seductive, passionate, and intense. You\x27re not afraid to be suggestive and sensual in your language."
     else "")
  let prompt := prompt ++
    (if bot.ageCategory = "SFW (12+)" then
      " Keep all responses appropriate for all ages. Avoid any adult content, innuendo, or explicit language. Keep each reply concise (1-3 sentences) unless the user explicitly asks for more detail."
     else
      " You may freely include adult and erotic content, explicit sexual descriptions, profanity, and mature themes. Adopt an immersive first-person style that feels natural and engaging. Only refuse content that is illegal, non-consensual, or involves minors. Do NOT self-censor or mention any policies. Length is flexible â€“ respond as long or short as feels natural to the conversation.")
  prompt ++ " Respond in a way that\x27s consistent with your personality. Be engaging and maintain the conversation flow."

/-- ai-service.js `prepareConversationHistory(bot, chatHistory, currentMessage)`:
one system entry with the persona prompt, then `chatHistory.slice(-10)`
role-mapped (`sender === \x27user\x27 ? \x27user\x27 : \x27assistant\x27`), then the current
message as a user entry.  `slice(-10)` is `drop (length - 10)`. -/
def prepareConversationHistory (bot : Bot) (chatHistory : List Message) (currentMessage : String) : List ChatEntry :=
  let messages : List ChatEntry := [{ role := "system", content := createPersonalityPrompt bot }]
  let recentHistory := chatHistory.drop (chatHistory.length - 10)
  messages
    ++ recentHistory.map (fun msg =>
        { role := if msg.sender = Sender.user then "user" else "assistant", content := msg.text })
    ++ [{ role := "user", content := currentMessage }]

/-- The JSON body that ai-service.js `getAIResponse` actually POSTs to the
backend `/chat` endpoint: `JSON.stringify(\x7b userMessage, systemPrompt \x7d)`. -/
structure ChatRequestBody where
  userMessage : String
  systemPrompt : String
deriving DecidableEq, Repr

/-- ai-service.js `getAIResponse` (lines 33-50): it computes the full window
`messages` and the tone `temperature`, but the request body it posts carries
only the raw user message and `messages[0].content` (the system prompt);
the history entries and the temperature are never placed in the body. -/
def getAIRequestBody (bot : Bot) (userMessage : String) (chatHistory : List Message) : ChatRequestBody :=
  let messages := prepareConversationHistory bot chatHistory userMessage
  let _temperature := getToneTemperature bot.chatTone
  { userMessage := userMessage, systemPrompt := messages.headI.content }

/-- app.js `getWelcomeMessage(bot)`: tone-keyed fixed table,
`toneMessages[bot.chatTone] || toneMessages[\x27Normal\x27]`. -/
def getWelcomeMessage (bot : Bot) : String :=
  if bot.chatTone = "Normal" then "How can I help you today?"
  else if bot.chatTone = "Romantic" then "I\x27ve been waiting for you. What would you like to talk about?"
  else if bot.chatTone = "Flirty" then "Hey there! I\x27m so excited to chat with you. What\x27s on your mind?"
  else if bot.chatTone = "Spicy" then "Well hello there... I\x27ve been looking forward to our conversation. What are you in the mood for?"
  else "How can I help you today?"

/-- app.js `initChatPage` history-loading step (lines 736-766): read the
transcript; if it is nonempty only render it, otherwise synthesize the
welcome message `Hello! I\x27m $\x7bbot.name\x7d. $\x7bgetWelcomeMessage(bot)\x7d` with
`sender: \x27bot\x27` and append it via `saveChatMessage`.  The welcome text is
produced locally, with no call into the completion boundary. -/
def initChatLoad (chats : Chats) (botId : String) (bot : Bot) (now : Nat) : Chats :=
  let chatHistory := getChatHistory chats botId
  if chatHistory.length > 0 then chats
  else saveChatMessage chats botId
    { sender := Sender.bot
      text := "Hello! I\x27m " ++ bot.name ++ ". " ++ getWelcomeMessage bot
      timestamp := now }

/-- app.js submit handler (lines 776-816), the window actually handed to the
completion call: append the user message to the store, re-read the transcript
(`latestHistory = getChatHistory(botId)`, which now already contains the
just-appended message), then build the window from that re-read history and
the same message text. -/
def sendWindow (chats : Chats) (botId : String) (bot : Bot) (messageText : String) (now : Nat) : List ChatEntry :=
  let userMessage : Message := { sender := Sender.user, text := messageText, timestamp := now }
  let chats1 := saveChatMessage chats botId userMessage
  let latestHistory := getChatHistory chats1 botId
  prepareConversationHistory bot latestHistory messageText

/-- Outcome of the completion boundary call as seen by the submit handler:
either a reply string or a thrown error (transport failure or error result). -/
inductive CompletionResult where
  | ok (reply : String)
  | failure
deriving DecidableEq, Repr

/-- app.js `handleDeleteMessage` storage mutation (lines 935-945): re-read the
chats map; for a user-authored message `history.splice(index)` removes the
message and everything after it, for a bot-authored message
`history.splice(index, 1)` removes exactly that message; write back. -/
def handleDeleteMessage (chats : Chats) (botId : String) (index : Nat) (sender : Sender) : Chats :=
  let history := getChatHistory chats botId
  let history2 :=
    if sender = Sender.user then history.take index
    else history.take index ++ history.drop (index + 1)
  fun k => if k = botId then history2 else chats k

/-- The backtick character, written via its code point. -/
def tick : Char := Char.ofNat 96

/-- JS whitespace as consumed by `String.prototype.trim` (ASCII range plus
no-break space; the exotic Unicode space classes do not occur here). -/
def isJsSpace (c : Char) : Bool :=
  c = ' ' || c = '\t' || c = '\n' || c = '\r' || c = Char.ofNat 11 || c = Char.ofNat 12 || c = Char.ofNat 160

/-- Drop leading JS whitespace. -/
def dropWs : List Char → List Char
  | [] => []
  | c :: cs => if isJsSpace c then dropWs cs else c :: cs

/-- JS `String.prototype.trim` on a character list. -/
def trimChars (l : List Char) : List Char :=
  (dropWs (dropWs l).reverse).reverse

/-- JS `String.prototype.trim` at the `String` interface. -/
def jsTrim (s : String) : String :=
  String.mk (trimChars s.data)

/-- app.js submit handler, one full round trip (lines 772-846): trim the
input and bail out when it is empty; otherwise append the user message
(optimistic persist), invoke the completion boundary, and on success append
the assistant message built from the trimmed reply (ai-service.js trims the
returned content before handing it back); the catch branch only shows a
toast and performs no store write. -/
def chatRound (chats : Chats) (botId : String) (bot : Bot) (rawInput : String)
    (tNow tReply : Nat) (result : CompletionResult) : Chats :=
  let messageText := jsTrim rawInput
  if messageText = "" then chats
  else
    let userMessage : Message := { sender := Sender.user, text := messageText, timestamp := tNow }
    let chats1 := saveChatMessage chats botId userMessage
    match result with
    | CompletionResult.ok reply =>
        saveChatMessage chats1 botId { sender := Sender.bot, text := jsTrim reply, timestamp := tReply }
    | CompletionResult.failure => chats1

/-- Replace every occurrence of one character by a replacement string,
modelling a JS `.replace(/c/g, r)` with a single-character pattern. -/
def replaceChar (t : Char) (r : List Char) : List Char → List Char
  | [] => []
  | c :: cs => if c = t then r ++ replaceChar t r cs else c :: replaceChar t r cs

/-- app.js `formatMessage` escaping step: `&` then `<` then `>` are replaced,
in that order, before any markup rule runs. -/
def escapeAll (l : List Char) : List Char :=
  replaceChar '>' "&gt;".data (replaceChar '<' "&lt;".data (replaceChar '&' "&amp;".data l))

/-- JS `\w`: ASCII letters, digits and underscore. -/
def isWordChar (c : Char) : Bool :=
  ('a' ≤ c && c ≤ 'z') || ('A' ≤ c && c ≤ 'Z') || ('0' ≤ c && c ≤ '9') || c = '_'

/-- Split off the maximal leading run of word characters (the greedy
`(\w+)?` of the code-block pattern). -/
def takeWordChars : List Char → List Char × List Char
  | [] => ([], [])
  | c :: cs =>
      if isWordChar c then
        let p := takeWordChars cs
        (c :: p.1, p.2)
      else ([], c :: cs)

/-- Lazy `([\s\S]*?)` up to the next triple backtick: the shortest split
`l = code ++ three ticks ++ rest`, if one exists. -/
def findTripleTick : List Char → Option (List Char × List Char)
  | [] => none
  | c :: cs =>
      if c = tick ∧ cs.take 2 = [tick, tick] then some ([], cs.drop 2)
      else
        match findTripleTick cs with
        | some (code, rest) => some (c :: code, rest)
        | none => none

/-- One regex-engine sweep of
`` escaped.replace(/```(\w+)?\n([\s\S]*?)```/g, ...) `` (app.js line 1115):
at a triple backtick take the greedy language word, require a newline, take
the lazy body up to the closing triple backtick, and emit the `<pre>` block
with the trimmed body; on any failure the engine advances one character.
The fuel argument only bounds the recursion; each step strictly shortens the
scanned list, so `fuel = length` never runs out. -/
def codeBlocksGo : Nat → List Char → List Char
  | 0, l => l
  | _ + 1, [] => []
  | fuel + 1, c :: cs =>
      if c = tick ∧ cs.take 2 = [tick, tick] then
        let pw := takeWordChars (cs.drop 2)
        match pw.2 with
        | nl :: rest2 =>
            if nl = '\n' then
              match findTripleTick rest2 with
              | some (code, rest3) =>
                  "<pre class=\"code-block\"><code class=\"language-".data
                    ++ (if pw.1 = [] then "text".data else pw.1)
                    ++ "\">".data ++ trimChars code ++ "</code></pre>".data
                    ++ codeBlocksGo fuel rest3
              | none => c :: codeBlocksGo fuel cs
            else c :: codeBlocksGo fuel cs
        | [] => c :: codeBlocksGo fuel cs
      else c :: codeBlocksGo fuel cs

/-- The code-block pass of `formatMessage`. -/
def codeBlocks (l : List Char) : List Char := codeBlocksGo l.length l

/-- Split off the maximal leading run of non-backtick characters
(the greedy `[^`]+` of the inline-code pattern). -/
def takeNonTick : List Char → List Char × List Char
  | [] => ([], [])
  | c :: cs =>
      if c = tick then ([], c :: cs)
      else
        let p := takeNonTick cs
        (c :: p.1, p.2)

/-- One sweep of the inline-code replace, pattern `` /`([^`]+)`/g `` with
replacement `<code class="inline-code">$1</code>`
(app.js line 1121): at a backtick take the non-backtick run; if it is
nonempty and a closing backtick follows, emit the tag and continue after it,
else advance one character. -/
def inlineCodeGo : Nat → List Char → List Char
  | 0, l => l
  | _ + 1, [] => []
  | fuel + 1, c :: cs =>
      if c = tick then
        let p := takeNonTick cs
        match p.2 with
        | _ :: rest =>
            if p.1 = [] then c :: inlineCodeGo fuel cs
            else "<code class=\"inline-code\">".data ++ p.1 ++ "</code>".data ++ inlineCodeGo fuel rest
        | [] => c :: inlineCodeGo fuel cs
      else c :: inlineCodeGo fuel cs

/-- The inline-code pass of `formatMessage`. -/
def inlineCode (l : List Char) : List Char := inlineCodeGo l.length l

/-- Split a character list at newlines (the line structure seen by the `/m`
header patterns). -/
def splitLines : List Char → List (List Char)
  | [] => [[]]
  | c :: cs =>
      if c = '\n' then [] :: splitLines cs
      else
        match splitLines cs with
        | [] => [[c]]
        | l :: ls => (c :: l) :: ls

/-- Rejoin lines with newlines. -/
def joinLines : List (List Char) → List Char
  | [] => []
  | [l] => l
  | l :: ls => l ++ '\n' :: joinLines ls

/-- One line under `^PRE (.+)$` with the `/m` flag: the line must start with
the marker, the remainder must be nonempty, and `.` matches neither newline
nor carriage return. -/
def headerLinePass (pre op cl line : List Char) : List Char :=
  if line.take pre.length = pre ∧ line.drop pre.length ≠ []
      ∧ (line.drop pre.length).all (fun c => c != '\r') = true then
    op ++ line.drop pre.length ++ cl
  else line

/-- One whole-string multiline header replace (the tags contain no newline,
so the per-pass line structure is preserved). -/
def headerPass (pre op cl : List Char) (l : List Char) : List Char :=
  joinLines ((splitLines l).map (headerLinePass pre op cl))

/-- The three header replaces of app.js lines 1124-1127, in source order:
`###` to `<h5>`, then `##` to `<h4>`, then `#` to `<h3>`. -/
def headersAll (l : List Char) : List Char :=
  headerPass "# ".data "<h3>".data "</h3>".data
    (headerPass "## ".data "<h4>".data "</h4>".data
      (headerPass "### ".data "<h5>".data "</h5>".data l))

/-- Lazy `(.+?)` up to a closing `**`: the shortest nonempty run of
dot-characters followed by a double star. -/
def findBoldClose : List Char → Option (List Char × List Char)
  | [] => none
  | c :: cs =>
      if c = '\n' ∨ c = '\r' then none
      else if cs.take 2 = ['*', '*'] then some ([c], cs.drop 2)
      else
        match findBoldClose cs with
        | some (content, rest) => some (c :: content, rest)
        | none => none

/-- One sweep of the bold replace, pattern `/\*\*(.+?)\*\*/g` with
replacement `<strong>$1</strong>`
(app.js line 1130): at a double star
find the lazy close; on success emit the tag and continue after the close,
on failure advance one character. -/
def boldGo : Nat → List Char → List Char
  | 0, l => l
  | _ + 1, [] => []
  | fuel + 1, c :: cs =>
      if c = '*' ∧ cs.take 1 = ['*'] then
        match findBoldClose (cs.drop 1) with
        | some (content, rest) => "<strong>".data ++ content ++ "</strong>".data ++ boldGo fuel rest
        | none => c :: boldGo fuel cs
      else c :: boldGo fuel cs

/-- The bold pass of `formatMessage`; it runs before the italic pass. -/
def boldPass (l : List Char) : List Char := boldGo l.length l

/-- Lazy `(.+?)` up to a closing single star. -/
def findItalicClose : List Char → Option (List Char × List Char)
  | [] => none
  | c :: cs =>
      if c = '\n' ∨ c = '\r' then none
      else if cs.take 1 = ['*'] then some ([c], cs.drop 1)
      else
        match findItalicClose cs with
        | some (content, rest) => some (c :: content, rest)
        | none => none

/-- One sweep of the italic replace (app.js line 1133), run after bold. -/
def italicGo : Nat → List Char → List Char
  | 0, l => l
  | _ + 1, [] => []
  | fuel + 1, c :: cs =>
      if c = '*' then
        match findItalicClose cs with
        | some (content, rest) => "<em>".data ++ content ++ "</em>".data ++ italicGo fuel rest
        | none => c :: italicGo fuel cs
      else c :: italicGo fuel cs

/-- The italic pass of `formatMessage`. -/
def italicPass (l : List Char) : List Char := italicGo l.length l

/-- app.js `formatMessage` pipeline on the character list of a string:
escape first, then code blocks, inline code, headers, bold, italic, and
finally newlines to `<br>`. -/
def formatMessageData (msg : List Char) : List Char :=
  let escaped := escapeAll msg
  let codeBlocksConverted := codeBlocks escaped
  let inlineCodeConverted := inlineCode codeBlocksConverted
  let headersConverted := headersAll inlineCodeConverted
  let boldConverted := boldPass headersConverted
  let italicConverted := italicPass boldConverted
  replaceChar '\n' "<br>".data italicConverted

/-- A JS value at the public `formatMessage` interface, with the `typeof`
tags that matter to its guard. -/
inductive JsValue where
  | str (s : String)
  | undef
  | nullV
  | number (q : ℚ)
  | boolean (b : Bool)
  | object
deriving DecidableEq

/-- JS `typeof`. -/
def typeOf : JsValue → String
  | JsValue.str _ => "string"
  | JsValue.undef => "undefined"
  | JsValue.nullV => "object"
  | JsValue.number _ => "number"
  | JsValue.boolean _ => "boolean"
  | JsValue.object => "object"

/-- app.js `formatMessage(msg)` (lines 1105-1139): the guard
`if (typeof msg !== \x27string\x27) return \x27\x27;` followed by the pipeline. -/
def formatMessage : JsValue → String
  | JsValue.str s => String.mk (formatMessageData s.data)
  | _ => ""

/-- Every ampersand in the list begins one of the three entities the escape
step emits (`&amp;`, `&lt;`, `&gt;`): no ampersand stands unescaped. -/
def ampEscaped : List Char → Bool
  | [] => true
  | c :: cs =>
      if c = '&' then
        ("amp;".data.isPrefixOf cs || "lt;".data.isPrefixOf cs || "gt;".data.isPrefixOf cs)
          && ampEscaped cs
      else ampEscaped cs

/-- The block of characters the escape step emits for one input character. -/
def escBlock (c : Char) : List Char :=
  if c = '&' then "&amp;".data
  else if c = '<' then "&lt;".data
  else if c = '>' then "&gt;".data
  else [c]

/-- Sample bot with Spicy tone and NSFW age category. -/
def botSpicy : Bot :=
  { name := "Luna", description := "a dreamy companion", chatTone := "Spicy", ageCategory := "NSFW (18+)" }

/-- Sample bot with an unrecognized chat tone. -/
def botWeird : Bot :=
  { name := "A", description := "d", chatTone := "Weird", ageCategory := "SFW (12+)" }

/-- Sample bot identical to `botWeird` except for a Normal tone. -/
def botNormalTone : Bot :=
  { name := "A", description := "d", chatTone := "Normal", ageCategory := "SFW (12+)" }

/-- A 15-message prior transcript, alternating user and bot messages. -/
def msgs15 : List Message :=
  [ { sender := Sender.user, text := "m1", timestamp := 1 },
    { sender := Sender.bot, text := "m2", timestamp := 2 },
    { sender := Sender.user, text := "m3", timestamp := 3 },
    { sender := Sender.bot, text := "m4", timestamp := 4 },
    { sender := Sender.user, text := "m5", timestamp := 5 },
    { sender := Sender.bot, text := "m6", timestamp := 6 },
    { sender := Sender.user, text := "m7", timestamp := 7 },
    { sender := Sender.bot, text := "m8", timestamp := 8 },
    { sender := Sender.user, text := "m9", timestamp := 9 },
    { sender := Sender.bot, text := "m10", timestamp := 10 },
    { sender := Sender.user, text := "m11", timestamp := 11 },
    { sender := Sender.bot, text := "m12", timestamp := 12 },
    { sender := Sender.user, text := "m13", timestamp := 13 },
    { sender := Sender.bot, text := "m14", timestamp := 14 },
    { sender := Sender.user, text := "m15", timestamp := 15 } ]

/-- A chats map holding `msgs15` under bot id `b`. -/
def chats15 : Chats := fun k => if k = "b" then msgs15 else []

/-- The empty chats map. -/
def chats0 : Chats := fun _ => []

/-- A 3-message transcript: user, bot, user. -/
def msgs3 : List Message :=
  [ { sender := Sender.user, text := "m0", timestamp := 1 },
    { sender := Sender.bot, text := "m1", timestamp := 2 },
    { sender := Sender.user, text := "m2", timestamp := 3 } ]

/-- A chats map holding `msgs3` under bot id `b`. -/
def chats3 : Chats := fun k => if k = "b" then msgs3 else []

/-! Helper lemmas. -/

lemma replaceChar_append (t : Char) (r x y : List Char) :
    replaceChar t r (x ++ y) = replaceChar t r x ++ replaceChar t r y := by
  induction x with
  | nil => rfl
  | cons c cs ih =>
      simp only [List.cons_append, replaceChar]
      split <;> simp [ih]

lemma escapeAll_cons (c : Char) (l : List Char) :
    escapeAll (c :: l) = escBlock c ++ escapeAll l := by
  by_cases h1 : c = '&'
  · subst h1
    have e1 : replaceChar '<' "&lt;".data "&amp;".data = "&amp;".data := by decide
    have e2 : replaceChar '>' "&gt;".data "&amp;".data = "&amp;".data := by decide
    simp [escapeAll, escBlock, replaceChar, replaceChar_append, e1, e2]
  by_cases h2 : c = '<'
  · subst h2
    have e2 : replaceChar '>' "&gt;".data "&lt;".data = "&lt;".data := by decide
    simp [escapeAll, escBlock, replaceChar, replaceChar_append, e2, h1]
  by_cases h3 : c = '>'
  · subst h3
    simp [escapeAll, escBlock, replaceChar, replaceChar_append, h1, h2]
  · simp [escapeAll, escBlock, replaceChar, h1, h2, h3]

lemma lt_not_mem_escBlock (c : Char) : '<' ∉ escBlock c := by
  by_cases h1 : c = '&'
  · subst h1; decide
  by_cases h2 : c = '<'
  · subst h2; decide
  by_cases h3 : c = '>'
  · subst h3; decide
  · simp [escBlock, h1, h2, h3]
    exact fun h => h2 h.symm

lemma gt_not_mem_escBlock (c : Char) : '>' ∉ escBlock c := by
  by_cases h1 : c = '&'
  · subst h1; decide
  by_cases h2 : c = '<'
  · subst h2; decide
  by_cases h3 : c = '>'
  · subst h3; decide
  · simp [escBlock, h1, h2, h3]
    exact fun h => h3 h.symm

lemma ampEscaped_escBlock_append (c : Char) (l : List Char) :
    ampEscaped (escBlock c ++ l) = ampEscaped l := by
  by_cases h1 : c = '&'
  · subst h1
    simp [escBlock, ampEscaped, List.isPrefixOf]
  by_cases h2 : c = '<'
  · subst h2
    simp [escBlock, ampEscaped, List.isPrefixOf]
  by_cases h3 : c = '>'
  · subst h3
    simp [escBlock, ampEscaped, List.isPrefixOf]
  · simp [escBlock, h1, h2, h3, ampEscaped]

lemma escapeAll_no_lt (l : List Char) : '<' ∉ escapeAll l := by
  induction l with
  | nil => simp [escapeAll, replaceChar]
  | cons c cs ih =>
      rw [escapeAll_cons]
      intro h
      rcases List.mem_append.mp h with h | h
      · exact lt_not_mem_escBlock c h
      · exact ih h

lemma escapeAll_no_gt (l : List Char) : '>' ∉ escapeAll l := by
  induction l with
  | nil => simp [escapeAll, replaceChar]
  | cons c cs ih =>
      rw [escapeAll_cons]
      intro h
      rcases List.mem_append.mp h with h | h
      · exact gt_not_mem_escBlock c h
      · exact ih h

lemma escapeAll_ampEscaped (l : List Char) : ampEscaped (escapeAll l) = true := by
  induction l with
  | nil => rfl
  | cons c cs ih => rw [escapeAll_cons, ampEscaped_escBlock_append]; exact ih

lemma reverse_take_reverse (l : List Message) (n : Nat) :
    (l.reverse.take n).reverse = l.drop (l.length - n) := by
  rw [List.reverse_take]
  simp

/-! Claim theorems. -/

/-- Claim C1: for every bot, history and new user message,
`prepareConversationHistory` returns exactly one system entry holding the
compiled persona prompt, then the last `min(len, 10)` history messages in
original order role-mapped (`user` to `user`, `bot` to `assistant`), then one
user entry holding the new message; hence the window length is
`2 + min(len, 10)` and never exceeds 12. -/
theorem C1_buildWindow_shape (bot : Bot) (hist : List Message) (msg : String) :
    prepareConversationHistory bot hist msg
      = { role := "system", content := createPersonalityPrompt bot }
          :: ((hist.reverse.take 10).reverse.map (fun m =>
              { role := if m.sender = Sender.user then "user" else "assistant"
                content := m.text }))
          ++ [{ role := "user", content := msg }]
    ∧ (prepareConversationHistory bot hist msg).length = 2 + min hist.length 10
    ∧ (prepareConversationHistory bot hist msg).length ≤ 12 := by
  refine ⟨?_, ?_, ?_⟩
  · simp [prepareConversationHistory, reverse_take_reverse]
  · simp [prepareConversationHistory]
    omega
  · simp [prepareConversationHistory]
    omega

set_option maxRecDepth 4000 in
/-- Claim C2, counterexample: with the 15-message transcript `msgs15` stored
and the user sending `m16`, the window actually built is not
[system, messages 6 through 15 of the prior transcript, the new message
once]: the new message occurs twice in the window (once because the re-read
history already contains it, once as the appended current entry). -/
theorem C2_counterexample :
    sendWindow chats15 "b" botSpicy "m16" 99
      ≠ { role := "system", content := createPersonalityPrompt botSpicy }
          :: ((msgs15.drop 5).map (fun m =>
              { role := if m.sender = Sender.user then "user" else "assistant"
                content := m.text }))
          ++ [{ role := "user", content := "m16" }]
    ∧ (sendWindow chats15 "b" botSpicy "m16" 99).count { role := "user", content := "m16" } = 2 := by
  constructor
  · decide
  · decide

/-- Claim C2, amended: with a 15-message persisted transcript, the window
built for the completion call is the system entry, then messages 7 through 15
of the prior transcript (the last 9 prior messages: the appended new message
already occupies one of the 10 trailing slots of the re-read history),
then the new message twice (once from the re-read history, once as the
current entry), for a total of 12 entries. -/
theorem C2_window_after_15 (chats : Chats) (botId : String) (bot : Bot) (msg : String) (now : Nat)
    (h : (getChatHistory chats botId).length = 15) :
    sendWindow chats botId bot msg now
      = { role := "system", content := createPersonalityPrompt bot }
          :: (((getChatHistory chats botId).drop 6).map (fun m =>
              { role := if m.sender = Sender.user then "user" else "assistant"
                content := m.text }))
          ++ [{ role := "user", content := msg }, { role := "user", content := msg }]
    ∧ (sendWindow chats botId bot msg now).length = 12 := by
  have hwin : sendWindow chats botId bot msg now
      = prepareConversationHistory bot
          (getChatHistory chats botId ++ [{ sender := Sender.user, text := msg, timestamp := now }]) msg := by
    simp [sendWindow, getChatHistory, saveChatMessage]
  constructor
  · rw [hwin]
    simp only [prepareConversationHistory, List.length_append, h, List.length_cons,
      List.length_nil]
    norm_num
    rw [List.drop_append_of_le_length (by simp [h])]
    simp
  · rw [hwin]
    simp [prepareConversationHistory, h]

/-- Claim C2, witness for the amended theorem at the concrete store
`chats15`. -/
theorem C2_window_after_15_witness :
    (getChatHistory chats15 "b").length = 15
    ∧ (sendWindow chats15 "b" botSpicy "m16" 99
        = { role := "system", content := createPersonalityPrompt botSpicy }
            :: (((getChatHistory chats15 "b").drop 6).map (fun m =>
                { role := if m.sender = Sender.user then "user" else "assistant"
                  content := m.text }))
            ++ [{ role := "user", content := "m16" }, { role := "user", content := "m16" }]
       ∧ (sendWindow chats15 "b" botSpicy "m16" 99).length = 12) :=
  ⟨by decide, C2_window_after_15 chats15 "b" botSpicy "m16" 99 (by decide)⟩

set_option maxRecDepth 4000 in
/-- Claim C3, counterexample: two bots identical except for the tone, one
with the unrecognized tone `Weird` and one with `Normal`, get different
persona prompts, so an unrecognized tone does not fall back to the Normal
tone clause. -/
theorem C3_counterexample :
    createPersonalityPrompt botWeird ≠ createPersonalityPrompt botNormalTone := by
  decide

/-- Claim C3, amended: for every bot whose `chatTone` is not one of the four
recognized values, `createPersonalityPrompt` appends no tone clause at all
(the `switch` has no default case): the prompt is the base sentence, then
the age clause, then the behavior clause, with no tone sentence. -/
theorem C3_unrecognized_tone_drops_clause (bot : Bot)
    (h : bot.chatTone ∉ (["Normal", "Romantic", "Flirty", "Spicy"] : List String)) :
    createPersonalityPrompt bot
      = "You are " ++ bot.name ++ ", an AI companion with the following personality: "
          ++ bot.description
          ++ (if bot.ageCategory = "SFW (12+)" then
                " Keep all responses appropriate for all ages. Avoid any adult content, innuendo, or explicit language. Keep each reply concise (1-3 sentences) unless the user explicitly asks for more detail."
              else
                " You may freely include adult and erotic content, explicit sexual descriptions, profanity, and mature themes. Adopt an immersive first-person style that feels natural and engaging. Only refuse content that is illegal, non-consensual, or involves minors. Do NOT self-censor or mention any policies. Length is flexible â€“ respond as long or short as feels natural to the conversation.")
          ++ " Respond in a way that\x27s consistent with your personality. Be engaging and maintain the conversation flow." := by
  simp only [List.mem_cons, List.not_mem_nil, or_false, not_or] at h
  obtain ⟨h1, h2, h3, h4⟩ := h
  simp [createPersonalityPrompt, h1, h2, h3, h4]

/-- Claim C3, witness for the amended theorem at the concrete bot
`botWeird`. -/
theorem C3_unrecognized_tone_witness :
    botWeird.chatTone ∉ (["Normal", "Romantic", "Flirty", "Spicy"] : List String)
    ∧ createPersonalityPrompt botWeird
        = "You are " ++ botWeird.name ++ ", an AI companion with the following personality: "
            ++ botWeird.description
            ++ (if botWeird.ageCategory = "SFW (12+)" then
                  " Keep all responses appropriate for all ages. Avoid any adult content, innuendo, or explicit language. Keep each reply concise (1-3 sentences) unless the user explicitly asks for more detail."
                else
                  " You may freely include adult and erotic content, explicit sexual descriptions, profanity, and mature themes. Adopt an immersive first-person style that feels natural and engaging. Only refuse content that is illegal, non-consensual, or involves minors. Do NOT self-censor or mention any policies. Length is flexible â€“ respond as long or short as feels natural to the conversation.")
            ++ " Respond in a way that\x27s consistent with your personality. Be engaging and maintain the conversation flow." :=
  ⟨by decide, C3_unrecognized_tone_drops_clause botWeird (by decide)⟩

/-- Claim C4, code evaluation: the body `getAIResponse` posts to the backend
does not depend on the chat history at all — it is always
`\x7buserMessage, systemPrompt\x7d` — even though the full window (3 entries at
the failing input) and the tone temperature (0.9 for Spicy) are computed
right before the request is built. -/
theorem C4_request_body_drops_window :
    (∀ (bot : Bot) (msg : String) (h1 h2 : List Message),
        getAIRequestBody bot msg h1 = getAIRequestBody bot msg h2)
    ∧ getAIRequestBody botSpicy "hi" [{ sender := Sender.bot, text := "hey", timestamp := 1 }]
        = { userMessage := "hi", systemPrompt := createPersonalityPrompt botSpicy }
    ∧ (prepareConversationHistory botSpicy
        [{ sender := Sender.bot, text := "hey", timestamp := 1 }] "hi").length = 3
    ∧ getToneTemperature botSpicy.chatTone = 9/10 := by
  refine ⟨?_, ?_, ?_, ?_⟩
  · intro bot msg h1 h2
    simp [getAIRequestBody, prepareConversationHistory]
  · simp [getAIRequestBody, prepareConversationHistory]
  · decide
  · simp [getToneTemperature, botSpicy]

lemma take_get?_lt {α : Type} (l : List α) : ∀ (i j : Nat), j < i →
    (l.take i).get? j = l.get? j := by
  induction l with
  | nil => intro i j h; simp
  | cons a tl ih =>
      intro i j h
      cases i with
      | zero => omega
      | succ k =>
          cases j with
          | zero => simp
          | succ j2 => simpa using ih k j2 (by omega)

lemma take_get?_ge {α : Type} (l : List α) : ∀ (i j : Nat), i ≤ j →
    (l.take i).get? j = none := by
  induction l with
  | nil => intro i j h; simp
  | cons a tl ih =>
      intro i j h
      cases i with
      | zero => simp
      | succ k =>
          cases j with
          | zero => omega
          | succ j2 => simpa using ih k j2 (by omega)

lemma splice_get?_lt {α : Type} (l : List α) : ∀ (i j : Nat), j < i →
    (l.take i ++ l.drop (i + 1)).get? j = l.get? j := by
  induction l with
  | nil => intro i j h; simp
  | cons a tl ih =>
      intro i j h
      cases i with
      | zero => omega
      | succ k =>
          cases j with
          | zero => simp
          | succ j2 => simpa using ih k j2 (by omega)

lemma splice_get?_ge {α : Type} (l : List α) : ∀ (i j : Nat), i ≤ j →
    (l.take i ++ l.drop (i + 1)).get? j = l.get? (j + 1) := by
  induction l with
  | nil => intro i j h; simp
  | cons a tl ih =>
      intro i j h
      cases i with
      | zero => simp
      | succ k =>
          cases j with
          | zero => omega
          | succ j2 => simpa using ih k j2 (by omega)

/-- Claim C5: deleting a user-authored message at index `i` truncates the
persisted transcript to length exactly `i`: every message before `i` is
preserved unchanged and the message at `i` and everything after it are
gone. -/
theorem C5_delete_user_truncates (chats : Chats) (botId : String) (i : Nat) (m : Message)
    (h1 : (getChatHistory chats botId).get? i = some m) (h2 : m.sender = Sender.user) :
    (getChatHistory (handleDeleteMessage chats botId i Sender.user) botId).length = i
    ∧ (∀ j, j < i →
        (getChatHistory (handleDeleteMessage chats botId i Sender.user) botId).get? j
          = (getChatHistory chats botId).get? j)
    ∧ (∀ j, i ≤ j →
        (getChatHistory (handleDeleteMessage chats botId i Sender.user) botId).get? j = none) := by
  have hr : getChatHistory (handleDeleteMessage chats botId i Sender.user) botId
      = (getChatHistory chats botId).take i := by
    simp [handleDeleteMessage, getChatHistory]
  have hlen : i < (getChatHistory chats botId).length := by
    rcases List.get?_eq_some.mp h1 with ⟨hl, _⟩
    exact hl
  refine ⟨?_, ?_, ?_⟩
  · rw [hr, List.length_take]
    omega
  · intro j hj
    rw [hr]
    exact take_get?_lt _ i j hj
  · intro j hj
    rw [hr]
    exact take_get?_ge _ i j hj

/-- Claim C5, witness: deleting the user message at index 2 of the stored
3-message transcript leaves exactly the 2 earlier messages. -/
theorem C5_delete_user_witness :
    (getChatHistory chats3 "b").get? 2
        = some { sender := Sender.user, text := "m2", timestamp := 3 }
    ∧ ({ sender := Sender.user, text := "m2", timestamp := 3 } : Message).sender = Sender.user
    ∧ ((getChatHistory (handleDeleteMessage chats3 "b" 2 Sender.user) "b").length = 2
        ∧ (∀ j, j < 2 →
            (getChatHistory (handleDeleteMessage chats3 "b" 2 Sender.user) "b").get? j
              = (getChatHistory chats3 "b").get? j)
        ∧ (∀ j, 2 ≤ j →
            (getChatHistory (handleDeleteMessage chats3 "b" 2 Sender.user) "b").get? j = none)) :=
  ⟨by decide, rfl,
    C5_delete_user_truncates chats3 "b" 2 { sender := Sender.user, text := "m2", timestamp := 3 }
      (by decide) rfl⟩

/-- Claim C6: deleting a bot-authored message at index `i` removes exactly
that message from the persisted transcript: earlier messages are unchanged,
each later message shifts down by exactly one position, and the length
decreases by exactly 1. -/
theorem C6_delete_bot_shifts (chats : Chats) (botId : String) (i : Nat) (m : Message)
    (h1 : (getChatHistory chats botId).get? i = some m) (h2 : m.sender = Sender.bot) :
    (getChatHistory (handleDeleteMessage chats botId i Sender.bot) botId).length + 1
        = (getChatHistory chats botId).length
    ∧ (∀ j, j < i →
        (getChatHistory (handleDeleteMessage chats botId i Sender.bot) botId).get? j
          = (getChatHistory chats botId).get? j)
    ∧ (∀ j, i ≤ j →
        (getChatHistory (handleDeleteMessage chats botId i Sender.bot) botId).get? j
          = (getChatHistory chats botId).get? (j + 1)) := by
  have hr : getChatHistory (handleDeleteMessage chats botId i Sender.bot) botId
      = (getChatHistory chats botId).take i ++ (getChatHistory chats botId).drop (i + 1) := by
    simp [handleDeleteMessage, getChatHistory]
  have hlen : i < (getChatHistory chats botId).length := by
    rcases List.get?_eq_some.mp h1 with ⟨hl, _⟩
    exact hl
  refine ⟨?_, ?_, ?_⟩
  · rw [hr]
    simp only [List.length_append, List.length_take, List.length_drop]
    omega
  · intro j hj
    rw [hr]
    exact splice_get?_lt _ i j hj
  · intro j hj
    rw [hr]
    exact splice_get?_ge _ i j hj

/-- Claim C6, witness: deleting the bot message at index 1 of the stored
3-message transcript shrinks it from 3 to 2 and shifts the later message
down. -/
theorem C6_delete_bot_witness :
    (getChatHistory chats3 "b").get? 1
        = some { sender := Sender.bot, text := "m1", timestamp := 2 }
    ∧ ({ sender := Sender.bot, text := "m1", timestamp := 2 } : Message).sender = Sender.bot
    ∧ ((getChatHistory (handleDeleteMessage chats3 "b" 1 Sender.bot) "b").length + 1
          = (getChatHistory chats3 "b").length
        ∧ (∀ j, j < 1 →
            (getChatHistory (handleDeleteMessage chats3 "b" 1 Sender.bot) "b").get? j
              = (getChatHistory chats3 "b").get? j)
        ∧ (∀ j, 1 ≤ j →
            (getChatHistory (handleDeleteMessage chats3 "b" 1 Sender.bot) "b").get? j
              = (getChatHistory chats3 "b").get? (j + 1))) :=
  ⟨by decide, rfl,
    C6_delete_bot_shifts chats3 "b" 1 { sender := Sender.bot, text := "m1", timestamp := 2 }
      (by decide) rfl⟩

/-- Claim C7: when the completion boundary fails, the persisted transcript
afterwards is exactly the prior transcript plus the just-sent user message:
the optimistic user-message persist precedes the completion call, the
failure branch writes nothing, and no assistant message is appended. -/
theorem C7_failure_keeps_user_message (chats : Chats) (botId : String) (bot : Bot)
    (raw : String) (tNow tReply : Nat) (h : jsTrim raw ≠ "") :
    getChatHistory (chatRound chats botId bot raw tNow tReply CompletionResult.failure) botId
      = getChatHistory chats botId
          ++ [{ sender := Sender.user, text := jsTrim raw, timestamp := tNow }] := by
  simp [chatRound, h, saveChatMessage, getChatHistory]

/-- Claim C7, witness: a failed round trip starting from the empty store
leaves exactly the user message persisted. -/
theorem C7_failure_witness :
    jsTrim "hello" ≠ ""
    ∧ getChatHistory (chatRound chats0 "b" botSpicy "hello" 5 9 CompletionResult.failure) "b"
        = getChatHistory chats0 "b"
            ++ [{ sender := Sender.user, text := jsTrim "hello", timestamp := 5 }] :=
  ⟨by decide, C7_failure_keeps_user_message chats0 "b" botSpicy "hello" 5 9 (by decide)⟩

/-- Claim C8: for a bot with an empty stored transcript, opening the chat
surface appends exactly one bot-authored welcome message to the store; its
text is the fixed greeting around the tone-keyed table entry, and for any
unrecognized tone the table falls back to the Normal entry.  The welcome
text is synthesized locally (`initChatLoad` takes no completion result). -/
theorem C8_welcome_on_empty (chats : Chats) (botId : String) (bot : Bot) (now : Nat)
    (h : getChatHistory chats botId = []) :
    getChatHistory (initChatLoad chats botId bot now) botId
      = [{ sender := Sender.bot
           text := "Hello! I\x27m " ++ bot.name ++ ". " ++ getWelcomeMessage bot
           timestamp := now }]
    ∧ (getChatHistory (initChatLoad chats botId bot now) botId).length = 1
    ∧ (bot.chatTone ∉ (["Normal", "Romantic", "Flirty", "Spicy"] : List String) →
        getWelcomeMessage bot = "How can I help you today?") := by
  have hr : getChatHistory (initChatLoad chats botId bot now) botId
      = [{ sender := Sender.bot
           text := "Hello! I\x27m " ++ bot.name ++ ". " ++ getWelcomeMessage bot
           timestamp := now }] := by
    have h2 : chats botId = [] := h
    simp [initChatLoad, getChatHistory, saveChatMessage, h2]
  refine ⟨hr, by rw [hr]; rfl, ?_⟩
  intro htone
  simp only [List.mem_cons, List.not_mem_nil, or_false, not_or] at htone
  obtain ⟨h1, h2, h3, h4⟩ := htone
  simp [getWelcomeMessage, h1, h2, h3, h4]

/-- Claim C8, witness: opening the chat for a bot with an unrecognized tone
on an empty store seeds exactly the Normal-fallback welcome message. -/
theorem C8_welcome_witness :
    getChatHistory chats0 "b" = []
    ∧ (getChatHistory (initChatLoad chats0 "b" botWeird 7) "b"
        = [{ sender := Sender.bot
             text := "Hello! I\x27m " ++ botWeird.name ++ ". " ++ getWelcomeMessage botWeird
             timestamp := 7 }]
       ∧ (getChatHistory (initChatLoad chats0 "b" botWeird 7) "b").length = 1
       ∧ (botWeird.chatTone ∉ (["Normal", "Romantic", "Flirty", "Spicy"] : List String) →
           getWelcomeMessage botWeird = "How can I help you today?")) :=
  ⟨rfl, C8_welcome_on_empty chats0 "b" botWeird 7 rfl⟩

set_option maxRecDepth 4000 in
/-- Claim C9: the formatter maps the exact input
`**bold** and *italic* and `code`` (backticks around `code`) to
`<strong>bold</strong> and <em>italic</em> and
<code class="inline-code">code</code>`; and for every input string the
pipeline runs the escape step before every markup rule (and bold before
italic), after which the text contains no raw `<` or `>` at all and every
`&` begins an inserted escape entity — so no markup-significant character
of the original input survives unescaped into the output. -/
theorem C9_format_round_trip :
    formatMessage (JsValue.str "**bold** and *italic* and `code`")
      = "<strong>bold</strong> and <em>italic</em> and <code class=\"inline-code\">code</code>"
    ∧ ∀ s : String,
        formatMessageData s.data
          = replaceChar '\n' "<br>".data
              (italicPass (boldPass (headersAll (inlineCode (codeBlocks (escapeAll s.data))))))
        ∧ '<' ∉ escapeAll s.data
        ∧ '>' ∉ escapeAll s.data
        ∧ ampEscaped (escapeAll s.data) = true := by
  refine ⟨by decide, fun s => ⟨rfl, escapeAll_no_lt _, escapeAll_no_gt _, escapeAll_ampEscaped _⟩⟩

/-- Claim C10: `formatMessage` is total at the public interface: every
non-string JS value is mapped to the empty string by the `typeof` guard,
and every string input is mapped through the (total) formatting pipeline
to a string. -/
theorem C10_formatMessage_total :
    (∀ v : JsValue, typeOf v ≠ "string" → formatMessage v = "")
    ∧ (∀ s : String, formatMessage (JsValue.str s) = String.mk (formatMessageData s.data)) := by
  constructor
  · intro v hv
    cases v with
    | str s => exact absurd rfl hv
    | undef => rfl
    | nullV => rfl
    | number q => rfl
    | boolean b => rfl
    | object => rfl
  · intro s
    rfl

/-- Claim C10, witness: a number input passes the guard and yields the
empty string. -/
theorem C10_formatMessage_witness :
    typeOf (JsValue.number 3) ≠ "string" ∧ formatMessage (JsValue.number 3) = "" :=
  ⟨by decide, C10_formatMessage_total.1 (JsValue.number 3) (by decide)⟩

end CraveAI
